import Mathlib

/-!
Verification development for the algohood_utils order-management subsystem.

Shallow embedding of `src/algoUtils/baseUtil.py` (class `OrderBase`, class
`QuicEventBase`) and `src/algoUtils/schemaUtil.py` (pydantic models).
Python floats are modelled as rationals, Python dicts keyed by strings as
functions `String → Option _`, and the in-place mutation of the private
tables as explicit state passing.
-/

namespace AlgoUtils

/-- Order status values; `partFilled` stands for the source key
`partial_filled` (baseUtil.py, `ORDER_STATUS` keys). -/
inductive Status where
  | pending
  | waiting
  | triggered
  | partFilled
  | canceling
  | canceled
  | error
  | filled
deriving DecidableEq

/-- Rank table `OrderBase.ORDER_STATUS` (baseUtil.py lines 209-218). -/
def ORDER_STATUS : Status → ℕ
  | .pending => 0
  | .waiting => 1
  | .triggered => 2
  | .partFilled => 3
  | .canceling => 4
  | .canceled => 5
  | .error => 5
  | .filled => 5

/-- Sniffer status values: the keys of `OrderBase.SNIFFER_STATUS`
(baseUtil.py lines 220-226). -/
inductive SStatus where
  | pending
  | waiting
  | triggered
  | canceled
  | error
deriving DecidableEq

/-- Every sniffer status name is also a key of `ORDER_STATUS` (the two source
dicts are keyed by the same strings); this injection records that. -/
def SStatus.toStatus : SStatus → Status
  | .pending => .pending
  | .waiting => .waiting
  | .triggered => .triggered
  | .canceled => .canceled
  | .error => .error

/-- Rank table `OrderBase.SNIFFER_STATUS` (baseUtil.py lines 220-226). -/
def SNIFFER_STATUS : SStatus → ℕ
  | .pending => 0
  | .waiting => 1
  | .triggered => 2
  | .canceled => 2
  | .error => 2

/-- One entry of the private `OrderBase.__orders` dict, with exactly the keys
written by `OrderBase._generate_order` (baseUtil.py lines 402-443).
The opaque `condition` and `msg` dict payloads are modelled as `Option String`;
they are only ever stored, never inspected. -/
structure OrderRec where
  order_id : String
  batch_id : String
  symbol : String
  exchange : String
  order_type : String
  action : String
  position : String
  amount : ℚ
  feature : Option String
  expire : Option ℚ
  delay : Option ℚ
  condition : Option String
  price : Option ℚ
  status : Status
  current_timestamp : ℚ
  send_timestamp : Option ℚ
  receive_timestamp : Option ℚ
  last_timestamp : Option ℚ
  local_timestamp : Option ℚ
  execute_price : Option ℚ
  execute_amount : ℚ
  fee_rate : Option ℚ
  msg : Option String
deriving DecidableEq

/-- The private `OrderBase.__orders` table. -/
abbrev OrderTable := String → Option OrderRec

/-- `OrderBase._generate_order` (baseUtil.py lines 402-443). The fresh
`str(uuid.uuid4())` key and the `self.get_current_timestamp()` reading are
passed in as `order_id` and `now`. -/
def generateOrder (orders : OrderTable) (order_id batch_id symbol exchange
    order_type action position : String) (amount : ℚ) (feature : Option String)
    (expire delay : Option ℚ) (condition : Option String) (price : Option ℚ)
    (now : ℚ) : OrderTable :=
  fun id =>
    if id = order_id then
      some
        { order_id := order_id
          batch_id := batch_id
          symbol := symbol
          exchange := exchange
          order_type := order_type
          action := action
          position := position
          amount := amount
          feature := feature
          expire := expire
          delay := delay
          condition := condition
          price := price
          status := .pending
          current_timestamp := now
          send_timestamp := none
          receive_timestamp := none
          last_timestamp := none
          local_timestamp := none
          execute_price := none
          execute_amount := 0
          fee_rate := none
          msg := none }
    else orders id

/-- `OrderBase._update_order_info` (baseUtil.py lines 451-492).  The Python
method mutates `self.__orders` in place and returns the updated dict (or
`None` when the id is unknown or the update is rejected); modelled as
returning the new table together with that return value.  `_execute_amount`
defaults to `0` and is a number whenever the comparison on line 470 runs, so
the source guards `or 0` and `is not None` on it are value-level identities
and it is taken as a plain rational here. -/
def updateOrderInfo (orders : OrderTable) (order_id : String) (status : Status)
    (last_timestamp local_timestamp : ℚ) (execute_price : Option ℚ)
    (execute_amount : ℚ) (fee_rate : Option ℚ) (msg : Option String) :
    OrderTable × Option OrderRec :=
  match orders order_id with
  | none => (orders, none)
  | some o =>
    if ORDER_STATUS status < ORDER_STATUS o.status then (orders, none)
    else if ORDER_STATUS status = ORDER_STATUS o.status ∧
        execute_amount ≤ o.execute_amount then (orders, none)
    else
      let o' : OrderRec :=
        { o with
          status := status
          last_timestamp := some last_timestamp
          local_timestamp := some local_timestamp
          execute_price :=
            match execute_price with
            | some p => some p
            | none => o.execute_price
          execute_amount := execute_amount
          fee_rate :=
            match fee_rate with
            | some f => some f
            | none => o.fee_rate
          msg :=
            match msg with
            | some m => some m
            | none => o.msg }
      if 5 ≤ ORDER_STATUS status then
        (fun id => if id = order_id then none else orders id, some o')
      else
        (fun id => if id = order_id then some o' else orders id, some o')

/-- A concrete freshly generated order, used by witnesses: exactly the record
`_generate_order` stores for a new limit order. -/
def oRec : OrderRec :=
  { order_id := "a"
    batch_id := "b"
    symbol := "btc_usdt|binance_future"
    exchange := "binance_future"
    order_type := "limit"
    action := "open"
    position := "long"
    amount := 1
    feature := none
    expire := none
    delay := none
    condition := none
    price := some 100
    status := .pending
    current_timestamp := 0
    send_timestamp := none
    receive_timestamp := none
    last_timestamp := none
    local_timestamp := none
    execute_price := none
    execute_amount := 0
    fee_rate := none
    msg := none }

/-- A one-order table holding `oRec` under key `"a"`, used by witnesses. -/
def ordersEx : OrderTable := fun id => if id = "a" then some oRec else none

/-- C1: for an order held in the table, `_update_order_info` accepts an update
iff the update's status rank strictly exceeds the stored rank, or the ranks are
equal and the update's execute_amount strictly exceeds the stored one; a
rejected update leaves the whole table (hence the stored order) unchanged; and
an accepted update stores the update's status, whose rank is never below the
stored rank — so the accepted status rank of an order_id is non-decreasing. -/
theorem update_order_accept_iff
    (orders : OrderTable) (order_id : String) (o : OrderRec) (status : Status)
    (lt loc : ℚ) (ep : Option ℚ) (ea : ℚ) (fr : Option ℚ) (m : Option String)
    (h : orders order_id = some o) :
    ((updateOrderInfo orders order_id status lt loc ep ea fr m).2.isSome ↔
       (ORDER_STATUS o.status < ORDER_STATUS status ∨
        (ORDER_STATUS status = ORDER_STATUS o.status ∧ o.execute_amount < ea)))
    ∧ ((updateOrderInfo orders order_id status lt loc ep ea fr m).2 = none →
       (updateOrderInfo orders order_id status lt loc ep ea fr m).1 = orders)
    ∧ (∀ o', (updateOrderInfo orders order_id status lt loc ep ea fr m).2 = some o' →
       o'.status = status ∧ ORDER_STATUS o.status ≤ ORDER_STATUS o'.status) := by
  unfold updateOrderInfo
  rw [h]
  simp only
  have hrej2 : ∀ h1 : ¬ORDER_STATUS status < ORDER_STATUS o.status,
      ∀ h2 : ORDER_STATUS status = ORDER_STATUS o.status ∧ ea ≤ o.execute_amount,
      ¬(ORDER_STATUS o.status < ORDER_STATUS status ∨
        (ORDER_STATUS status = ORDER_STATUS o.status ∧ o.execute_amount < ea)) := by
    rintro h1 h2 (h' | ⟨h', hlt⟩)
    · omega
    · exact absurd hlt (not_lt.mpr h2.2)
  have hacc : ∀ h1 : ¬ORDER_STATUS status < ORDER_STATUS o.status,
      ∀ h2 : ¬(ORDER_STATUS status = ORDER_STATUS o.status ∧ ea ≤ o.execute_amount),
      ORDER_STATUS o.status < ORDER_STATUS status ∨
        (ORDER_STATUS status = ORDER_STATUS o.status ∧ o.execute_amount < ea) := by
    intro h1 h2
    rcases Nat.lt_or_ge (ORDER_STATUS o.status) (ORDER_STATUS status) with h' | h'
    · exact Or.inl h'
    · right
      have he : ORDER_STATUS status = ORDER_STATUS o.status := by omega
      refine ⟨he, ?_⟩
      by_contra hle
      exact h2 ⟨he, not_lt.mp hle⟩
  split_ifs with h1 h2 h5
  · refine ⟨?_, fun _ => rfl, ?_⟩
    · simp only [Option.isSome_none, Bool.false_eq_true, false_iff]
      rintro (h' | ⟨h', _⟩) <;> omega
    · intro o' ho'
      exact absurd ho' (by simp)
  · refine ⟨?_, fun _ => rfl, ?_⟩
    · simp only [Option.isSome_none, Bool.false_eq_true, false_iff]
      exact hrej2 h1 h2
    · intro o' ho'
      exact absurd ho' (by simp)
  · exact ⟨by simpa using hacc h1 h2, by simp, fun o' ho' => by
      cases ho'
      refine ⟨rfl, ?_⟩
      show ORDER_STATUS o.status ≤ ORDER_STATUS status
      rcases hacc h1 h2 with h' | ⟨h', _⟩ <;> omega⟩
  · exact ⟨by simpa using hacc h1 h2, by simp, fun o' ho' => by
      cases ho'
      refine ⟨rfl, ?_⟩
      show ORDER_STATUS o.status ≤ ORDER_STATUS status
      rcases hacc h1 h2 with h' | ⟨h', _⟩ <;> omega⟩

/-- Witness for C1 at a concrete input: a pending order receiving a `waiting`
update with execute_amount 0. -/
theorem update_order_accept_iff_witness :
    (updateOrderInfo ordersEx "a" .waiting 1 2 none 0 none none).2.isSome ↔
      (ORDER_STATUS oRec.status < ORDER_STATUS .waiting ∨
       (ORDER_STATUS .waiting = ORDER_STATUS oRec.status ∧ oRec.execute_amount < 0)) :=
  (update_order_accept_iff ordersEx "a" oRec .waiting 1 2 none 0 none none rfl).1

/-- C4: an accepted update whose status has rank 5 (canceled, error or filled)
removes the order from the table; and a call for an id that is absent from
the table — such as an already finalized and evicted order — is a no-op
returning `None` and leaving the table exactly as it was. -/
theorem update_order_terminal_removes
    (orders : OrderTable) (order_id : String) (o : OrderRec) (status : Status)
    (lt loc : ℚ) (ep : Option ℚ) (ea : ℚ) (fr : Option ℚ) (m : Option String)
    (h : orders order_id = some o) (h5 : ORDER_STATUS status = 5) :
    ((updateOrderInfo orders order_id status lt loc ep ea fr m).2.isSome →
       (updateOrderInfo orders order_id status lt loc ep ea fr m).1 order_id = none)
    ∧ (∀ (t : OrderTable) (id : String) (status' : Status) (lt' loc' : ℚ)
        (ep' : Option ℚ) (ea' : ℚ) (fr' : Option ℚ) (m' : Option String),
        t id = none →
        updateOrderInfo t id status' lt' loc' ep' ea' fr' m' = (t, none)) := by
  constructor
  · intro hs
    unfold updateOrderInfo at *
    rw [h] at hs ⊢
    simp only at hs ⊢
    split_ifs with h1 h2 <;> simp_all
  · intro t id status' lt' loc' ep' ea' fr' m' ht
    unfold updateOrderInfo
    rw [ht]

/-- Witness for C4 at a concrete input: a pending order receiving a `filled`
update is evicted, and an update for the absent id `"z"` is a no-op. -/
theorem update_order_terminal_removes_witness :
    (updateOrderInfo ordersEx "a" .filled 1 2 none 1 none none).1 "a" = none :=
  (update_order_terminal_removes ordersEx "a" oRec .filled 1 2 none 1 none none
    rfl rfl).1 (by decide)

/-- One entry of the private `OrderBase.__sniffers` dict, the union of the keys
written by `OrderBase._generate_target_sniffer` (baseUtil.py lines 337-367,
`order_type = 'target'`, no `back_pct` key) and
`OrderBase._generate_trailing_sniffer` (lines 369-400, `order_type =
'trailing'`, no `target_price` key); the keys missing from either variant are
modelled as `none`.  The `drop` flag comes from the `TargetSnifferInfo` /
`TrailingSnifferInfo` schema (schemaUtil.py lines 370 and 410, default
`True`): the baseUtil generator dicts never set it and `_update_sniffer_info`
never reads it; it is carried here so the spec's drop-gated retention can be
stated. -/
structure SnifferRec where
  order_id : String
  batch_id : String
  symbol : String
  exchange : String
  order_type : String
  operator : String
  target_price : Option ℚ
  back_pct : Option ℚ
  smooth : Option ℚ
  expire : Option ℚ
  delay : Option ℚ
  status : SStatus
  last_timestamp : Option ℚ
  local_timestamp : Option ℚ
  drop : Bool
deriving DecidableEq

/-- The private `OrderBase.__sniffers` table. -/
abbrev SnifferTable := String → Option SnifferRec

/-- `OrderBase._generate_target_sniffer` (baseUtil.py lines 337-367); the
fresh `str(uuid.uuid4())` key is passed in as `order_id`.  The local
`_, exchange = _symbol.split('|')` of the source is dead (the dict stores the
`_exchange` parameter) and is not modelled. -/
def generateTargetSniffer (sniffers : SnifferTable)
    (order_id batch_id symbol exchange : String) (target_price : ℚ)
    (operator : String) (smooth expire delay : Option ℚ) : SnifferTable :=
  fun id =>
    if id = order_id then
      some
        { order_id := order_id
          batch_id := batch_id
          symbol := symbol
          exchange := exchange
          order_type := "target"
          operator := operator
          target_price := some target_price
          back_pct := none
          smooth := smooth
          expire := expire
          delay := delay
          status := .pending
          last_timestamp := none
          local_timestamp := none
          drop := true }
    else sniffers id

/-- `OrderBase._generate_trailing_sniffer` (baseUtil.py lines 369-400). -/
def generateTrailingSniffer (sniffers : SnifferTable)
    (order_id batch_id symbol exchange operator : String) (back_pct : ℚ)
    (smooth expire delay : Option ℚ) : SnifferTable :=
  fun id =>
    if id = order_id then
      some
        { order_id := order_id
          batch_id := batch_id
          symbol := symbol
          exchange := exchange
          order_type := "trailing"
          operator := operator
          target_price := none
          back_pct := some back_pct
          smooth := smooth
          expire := expire
          delay := delay
          status := .pending
          last_timestamp := none
          local_timestamp := none
          drop := true }
    else sniffers id

/-- `OrderBase._update_sniffer_info` (baseUtil.py lines 494-515).  The rank
comparison on line 505 indexes `ORDER_STATUS` (not `SNIFFER_STATUS`) with the
sniffer status strings, modelled through `SStatus.toStatus`; the removal test
on line 512 indexes `SNIFFER_STATUS`.  The removal is unconditional: no field
of the stored entry other than `status` is consulted. -/
def updateSnifferInfo (sniffers : SnifferTable) (order_id : String)
    (status : SStatus) (last_timestamp local_timestamp : ℚ) :
    SnifferTable × Option SnifferRec :=
  match sniffers order_id with
  | none => (sniffers, none)
  | some s =>
    if ORDER_STATUS status.toStatus < ORDER_STATUS s.status.toStatus then
      (sniffers, none)
    else
      let s' : SnifferRec :=
        { s with
          status := status
          last_timestamp := some last_timestamp
          local_timestamp := some local_timestamp }
      if 2 ≤ SNIFFER_STATUS status then
        (fun id => if id = order_id then none else sniffers id, some s')
      else
        (fun id => if id = order_id then some s' else sniffers id, some s')

/-- A concrete waiting target sniffer whose drop flag is false. -/
def snifDropFalse : SnifferRec :=
  { order_id := "s"
    batch_id := "b"
    symbol := "btc_usdt|binance_future"
    exchange := "binance_future"
    order_type := "target"
    operator := "gte"
    target_price := some 100
    back_pct := none
    smooth := none
    expire := none
    delay := none
    status := .waiting
    last_timestamp := none
    local_timestamp := none
    drop := false }

/-- A one-sniffer table holding `snifDropFalse` under key `"s"`. -/
def sniffersEx : SnifferTable := fun id => if id = "s" then some snifDropFalse else none

/-- C2 counterexample: a waiting sniffer with `drop = false` that accepts a
`triggered` (terminal, rank 2) update is nonetheless removed from the table,
refuting the claim that a `drop = false` sniffer reaching terminal rank is
retained with its final status. -/
theorem sniffer_drop_false_removed_cex :
    snifDropFalse.drop = false ∧
      (updateSnifferInfo sniffersEx "s" .triggered 1 2).2.isSome = true ∧
      (updateSnifferInfo sniffersEx "s" .triggered 1 2).1 "s" = none := by
  refine ⟨rfl, ?_, ?_⟩ <;> decide

/-- C2 amended: when `_update_sniffer_info` accepts an update carrying a
terminal status (rank 2: triggered, canceled, error), it always removes the
entry from the table, whatever the value of the drop flag — the drop flag is
never consulted and no retention path exists. -/
theorem update_sniffer_terminal_always_removes
    (sniffers : SnifferTable) (order_id : String) (s : SnifferRec)
    (status : SStatus) (lt loc : ℚ) (h : sniffers order_id = some s)
    (hterm : 2 ≤ SNIFFER_STATUS status)
    (hacc : ¬ ORDER_STATUS status.toStatus < ORDER_STATUS s.status.toStatus) :
    (updateSnifferInfo sniffers order_id status lt loc).2.isSome = true ∧
      (updateSnifferInfo sniffers order_id status lt loc).1 order_id = none := by
  unfold updateSnifferInfo
  rw [h]
  simp only
  rw [if_neg hacc, if_pos hterm]
  exact ⟨rfl, by simp⟩

/-- Witness for the amended C2 at a concrete input: the very sniffer of the
counterexample (drop = false) is removed on an accepted `triggered` update. -/
theorem update_sniffer_terminal_always_removes_witness :
    (updateSnifferInfo sniffersEx "s" SStatus.triggered 1 2).2.isSome = true ∧
      (updateSnifferInfo sniffersEx "s" SStatus.triggered 1 2).1 "s" = none :=
  update_sniffer_terminal_always_removes sniffersEx "s" snifDropFalse
    .triggered 1 2 rfl (by decide) (by decide)

/-- The sniffer tables reachable from the empty table by the two placement
generators and by `_update_sniffer_info`. -/
inductive SnifferReach : SnifferTable → Prop where
  | empty : SnifferReach (fun _ => none)
  | genTarget (t : SnifferTable) (order_id batch_id symbol exchange : String)
      (target_price : ℚ) (operator : String) (smooth expire delay : Option ℚ) :
      SnifferReach t →
      SnifferReach (generateTargetSniffer t order_id batch_id symbol exchange
        target_price operator smooth expire delay)
  | genTrailing (t : SnifferTable) (order_id batch_id symbol exchange operator : String)
      (back_pct : ℚ) (smooth expire delay : Option ℚ) :
      SnifferReach t →
      SnifferReach (generateTrailingSniffer t order_id batch_id symbol exchange
        operator back_pct smooth expire delay)
  | update (t : SnifferTable) (order_id : String) (status : SStatus)
      (lt loc : ℚ) : SnifferReach t →
      SnifferReach (updateSnifferInfo t order_id status lt loc).1

/-- C9: in every table reachable by placements and `_update_sniffer_info`
calls, every stored sniffer has status pending or waiting (a terminal-status
sniffer is never stored, because an accepted terminal update removes the entry
in the same call); and on such stored statuses the rank comparison through
`ORDER_STATUS` used by the source decides acceptance identically to the
`SNIFFER_STATUS` trigger rank table, for every incoming sniffer status. -/
theorem sniffer_states_and_rank_tables :
    (∀ t, SnifferReach t → ∀ id s, t id = some s →
       s.status = SStatus.pending ∨ s.status = SStatus.waiting)
    ∧ (∀ (s : SnifferRec) (status : SStatus),
       s.status = SStatus.pending ∨ s.status = SStatus.waiting →
       ((ORDER_STATUS status.toStatus < ORDER_STATUS s.status.toStatus) ↔
        (SNIFFER_STATUS status < SNIFFER_STATUS s.status))) := by
  constructor
  · intro t ht
    induction ht with
    | empty =>
      intro id s hs
      exact absurd hs (by simp)
    | genTarget t oid bid sym exch tp op sm ex dl ht ih =>
      intro id s hs
      unfold generateTargetSniffer at hs
      by_cases hid : id = oid
      · rw [if_pos hid] at hs
        cases hs
        exact Or.inl rfl
      · rw [if_neg hid] at hs
        exact ih id s hs
    | genTrailing t oid bid sym exch op bp sm ex dl ht ih =>
      intro id s hs
      unfold generateTrailingSniffer at hs
      by_cases hid : id = oid
      · rw [if_pos hid] at hs
        cases hs
        exact Or.inl rfl
      · rw [if_neg hid] at hs
        exact ih id s hs
    | update t oid st lt loc ht ih =>
      intro id s hs
      unfold updateSnifferInfo at hs
      cases h0 : t oid with
      | none =>
        rw [h0] at hs
        exact ih id s hs
      | some s0 =>
        rw [h0] at hs
        simp only at hs
        split_ifs at hs with h1 h2
        · exact ih id s hs
        · dsimp only at hs
          by_cases hid : id = oid
          · rw [if_pos hid] at hs
            exact absurd hs (by simp)
          · rw [if_neg hid] at hs
            exact ih id s hs
        · dsimp only at hs
          by_cases hid : id = oid
          · rw [if_pos hid] at hs
            cases hs
            cases st <;> simp_all [SNIFFER_STATUS]
          · rw [if_neg hid] at hs
            exact ih id s hs
  · intro s status hps
    rcases hps with h' | h' <;> rw [h'] <;> cases status <;> decide

/-- The record `_generate_target_sniffer` stores for the witness placement. -/
def snifGenRec : SnifferRec :=
  { order_id := "s"
    batch_id := "b"
    symbol := "btc_usdt|binance_future"
    exchange := "binance_future"
    order_type := "target"
    operator := "gte"
    target_price := some 100
    back_pct := none
    smooth := none
    expire := none
    delay := none
    status := .pending
    last_timestamp := none
    local_timestamp := none
    drop := true }

/-- Witness for C9 at a concrete input: the sniffer freshly placed by
`_generate_target_sniffer` into the empty table has status pending or
waiting, and on it the two rank tables agree about a `triggered` update. -/
theorem sniffer_states_and_rank_tables_witness :
    (snifGenRec.status = SStatus.pending ∨ snifGenRec.status = SStatus.waiting)
    ∧ ((ORDER_STATUS (SStatus.toStatus .triggered) <
          ORDER_STATUS snifGenRec.status.toStatus) ↔
       (SNIFFER_STATUS .triggered < SNIFFER_STATUS snifGenRec.status)) :=
  ⟨sniffer_states_and_rank_tables.1
      (generateTargetSniffer (fun _ => none) "s" "b" "btc_usdt|binance_future"
        "binance_future" 100 "gte" none none none)
      (SnifferReach.genTarget _ "s" "b" "btc_usdt|binance_future"
        "binance_future" 100 "gte" none none none SnifferReach.empty)
      "s" snifGenRec (by decide),
   sniffer_states_and_rank_tables.2 snifGenRec .triggered
      (sniffer_states_and_rank_tables.1
        (generateTargetSniffer (fun _ => none) "s" "b" "btc_usdt|binance_future"
          "binance_future" 100 "gte" none none none)
        (SnifferReach.genTarget _ "s" "b" "btc_usdt|binance_future"
          "binance_future" 100 "gte" none none none SnifferReach.empty)
        "s" snifGenRec (by decide))⟩

/-- Python `int(x)`: truncation toward zero. -/
def pyInt (q : ℚ) : ℤ := if 0 ≤ q then ⌊q⌋ else ⌈q⌉

/-- Python `round(x)` on an exact value: round half to even. -/
def roundHalfEven (q : ℚ) : ℤ :=
  if q - ⌊q⌋ < 1/2 then ⌊q⌋
  else if 1/2 < q - ⌊q⌋ then ⌊q⌋ + 1
  else if ⌊q⌋ % 2 = 0 then ⌊q⌋ else ⌊q⌋ + 1

/-- Python `round(x, p)`: round to `p` decimal digits, half to even. -/
def pyRoundTo (q : ℚ) (p : ℤ) : ℚ :=
  ((roundHalfEven (q * (10 : ℚ) ^ p) : ℤ) : ℚ) / (10 : ℚ) ^ p

/-- The per-symbol entry of `OrderBase.__precision_dict` (baseUtil.py line
325), matching the `PrecisionDict` schema (schemaUtil.py lines 265-270):
integer price and amount digit counts. -/
structure PrecisionRec where
  price : ℤ
  amount : ℤ
deriving DecidableEq

/-- `OrderBase._set_precision_dict` (baseUtil.py lines 324-325). -/
def setPrecisionDict (pd : String → Option PrecisionRec) (symbol : String)
    (price amount : ℤ) : String → Option PrecisionRec :=
  fun s => if s = symbol then some { price := price, amount := amount } else pd s

/-- `OrderBase.format_amount` (baseUtil.py lines 245-250); `none` models the
KeyError raised when the symbol has no registered precision. -/
def format_amount (pd : String → Option PrecisionRec) (symbol : String)
    (amount : ℚ) (upper : Bool) : Option ℚ :=
  match pd symbol with
  | none => none
  | some pr =>
    let factor : ℚ := (10 : ℚ) ^ pr.amount
    let int_amount : ℤ := pyInt (amount * factor)
    let bias : ℤ := if upper then 1 else 0
    some (pyRoundTo (((int_amount + bias : ℤ) : ℚ) / factor) pr.amount)

/-- `OrderBase.format_price` (baseUtil.py lines 252-257). -/
def format_price (pd : String → Option PrecisionRec) (symbol : String)
    (price : ℚ) (upper : Bool) : Option ℚ :=
  match pd symbol with
  | none => none
  | some pr =>
    let factor : ℚ := (10 : ℚ) ^ pr.price
    let int_amount : ℤ := pyInt (price * factor)
    let bias : ℤ := if upper then 1 else 0
    some (pyRoundTo (((int_amount + bias : ℤ) : ℚ) / factor) pr.price)

theorem roundHalfEven_intCast (n : ℤ) : roundHalfEven (n : ℚ) = n := by
  unfold roundHalfEven
  rw [Int.floor_intCast]
  rw [if_pos (by norm_num)]

/-- A value that already has exactly `p` decimal digits is a fixed point of
`round(·, p)`. -/
theorem pyRoundTo_int_div (n p : ℤ) :
    pyRoundTo ((n : ℚ) / (10 : ℚ) ^ p) p = (n : ℚ) / (10 : ℚ) ^ p := by
  unfold pyRoundTo
  rw [div_mul_cancel₀ _ (zpow_ne_zero p (by norm_num : (10:ℚ) ≠ 0))]
  rw [roundHalfEven_intCast]

/-- The registered-precision table used by the quantization examples. -/
def pdEx : String → Option PrecisionRec :=
  fun s => if s = "btc_usdt" then some { price := 2, amount := 2 } else none

/-- C3: with registered price precision p, `format_price` truncates
`price * 10^p` toward zero, adds a 1-unit bias when `upper`, divides back and
rounds to p digits — and that final round is the identity, so the result is
exactly `(int(price*10^p) + bias) / 10^p`; with p = 2, 100.127 formats to
100.12 (`upper = false`) and 100.13 (`upper = true`); and `format_amount` is
the same computation driven by the amount precision. -/
theorem format_price_spec
    (pd : String → Option PrecisionRec) (symbol : String) (pr : PrecisionRec)
    (price : ℚ) (upper : Bool) (h : pd symbol = some pr) :
    (format_price pd symbol price upper =
       some (pyRoundTo
         (((pyInt (price * (10 : ℚ) ^ pr.price) + (if upper then 1 else 0) : ℤ) : ℚ) /
           (10 : ℚ) ^ pr.price) pr.price))
    ∧ (format_price pd symbol price upper =
       some (((pyInt (price * (10 : ℚ) ^ pr.price) + (if upper then 1 else 0) : ℤ) : ℚ) /
         (10 : ℚ) ^ pr.price))
    ∧ (∀ (x : ℚ) (u : Bool), format_amount pd symbol x u =
       some (((pyInt (x * (10 : ℚ) ^ pr.amount) + (if u then 1 else 0) : ℤ) : ℚ) /
         (10 : ℚ) ^ pr.amount))
    ∧ format_price pdEx "btc_usdt" (100127/1000) false = some (10012/100)
    ∧ format_price pdEx "btc_usdt" (100127/1000) true = some (10013/100) := by
  have hb : ∀ (pd' : String → Option PrecisionRec) (sym : String)
      (pr' : PrecisionRec) (x : ℚ) (u : Bool), pd' sym = some pr' →
      format_price pd' sym x u =
        some (((pyInt (x * (10 : ℚ) ^ pr'.price) + (if u then 1 else 0) : ℤ) : ℚ) /
          (10 : ℚ) ^ pr'.price) := by
    intro pd' sym pr' x u h'
    unfold format_price
    rw [h']
    simp only
    rw [pyRoundTo_int_div]
  refine ⟨?_, hb pd symbol pr price upper h, ?_, ?_, ?_⟩
  · unfold format_price
    rw [h]
  · intro x u
    unfold format_amount
    rw [h]
    simp only
    rw [pyRoundTo_int_div]
  · rw [hb pdEx "btc_usdt" { price := 2, amount := 2 } (100127/1000) false rfl]
    have : pyInt ((100127/1000 : ℚ) * (10 : ℚ) ^ ((2:ℤ))) = 10012 := by
      rw [pyInt, if_pos (by norm_num)]
      norm_num
    rw [this]
    norm_num
  · rw [hb pdEx "btc_usdt" { price := 2, amount := 2 } (100127/1000) true rfl]
    have : pyInt ((100127/1000 : ℚ) * (10 : ℚ) ^ ((2:ℤ))) = 10012 := by
      rw [pyInt, if_pos (by norm_num)]
      norm_num
    rw [this]
    norm_num

/-- Witness for C3 at a concrete input: the registered symbol of `pdEx`. -/
theorem format_price_spec_witness :
    format_price pdEx "btc_usdt" (100127/1000) false =
      some (((pyInt ((100127/1000) * (10 : ℚ) ^ (2:ℤ)) + (if false then 1 else 0) : ℤ) : ℚ) /
        (10 : ℚ) ^ (2:ℤ)) :=
  (format_price_spec pdEx "btc_usdt" { price := 2, amount := 2 }
    (100127/1000) false rfl).2.1

/-- Python `round(x, 6)`, the timestamp normalization used throughout
schemaUtil.py (`validate_timestamp_precision` and the `__setattr__`
overrides). -/
def pyRound6 (q : ℚ) : ℚ := pyRoundTo q 6

/-- `order_type` literal (schemaUtil.py line 281). -/
inductive OrderType where
  | market
  | limit
  | condition_limit
  | condition_market
deriving DecidableEq

/-- `action` literal (schemaUtil.py line 282); `open_` stands for the source
value `'open'`. -/
inductive Action where
  | open_
  | close
deriving DecidableEq

/-- `position` literal (schemaUtil.py line 283). -/
inductive Position where
  | long
  | short
deriving DecidableEq

/-- `feature` literal (schemaUtil.py line 286). -/
inductive Feature where
  | fok
  | fak
  | gtx
  | queue
deriving DecidableEq

/-- The `OrderInfo` pydantic model (schemaUtil.py lines 273-302).  Opaque
`condition`/`msg` dict payloads are `Option String`. -/
structure OrderInfo where
  order_id : String
  batch_id : String
  symbol : String
  exchange : String
  order_type : OrderType
  action : Action
  position : Position
  direction : ℤ
  amount : ℚ
  feature : Option Feature
  expire : Option ℚ
  delay : Option ℚ
  condition : Option String
  price : Option ℚ
  status : Status
  current_timestamp : ℚ
  send_timestamp : Option ℚ
  receive_timestamp : Option ℚ
  exchange_timestamp : Option ℚ
  local_timestamp : Option ℚ
  trigger_timestamp : Option ℚ
  trigger_local_timestamp : Option ℚ
  execute_price : ℚ
  execute_amount : ℚ
  fee_rate : Option ℚ
  msg : Option String
deriving DecidableEq

/-- `OrderInfo.validate_direction` (schemaUtil.py lines 312-323): the value
written into `direction` for each position/action combination. -/
def directionOf : Position → Action → ℤ
  | .long, .open_ => 1
  | .long, .close => -1
  | .short, .open_ => -1
  | .short, .close => 1

/-- Pydantic construction of an `OrderInfo` (schemaUtil.py lines 273-330):
the `validate_timestamp_precision` field validator rounds the seven timestamp
fields to 6 digits, the `validate_direction` model validator overwrites
`direction` from position and action, and the `validate_price_required`
model validator raises when order_type is limit or condition_limit, price is
None and feature is not queue.  `direction` and `status` take their declared
defaults (`0`, overwritten, and `'pending'`). -/
def mkOrderInfo (order_id batch_id symbol exchange : String)
    (order_type : OrderType) (action : Action) (position : Position)
    (amount : ℚ) (feature : Option Feature) (expire delay : Option ℚ)
    (condition : Option String) (price : Option ℚ) (current_timestamp : ℚ)
    (send_ts receive_ts exchange_ts local_ts trigger_ts trigger_local_ts : Option ℚ)
    (execute_price execute_amount : ℚ) (fee_rate : Option ℚ)
    (msg : Option String) : Except String OrderInfo :=
  if (order_type = .limit ∨ order_type = .condition_limit) ∧ price = none ∧
      feature ≠ some .queue then
    .error "price is required for this order_type"
  else
    .ok
      { order_id := order_id
        batch_id := batch_id
        symbol := symbol
        exchange := exchange
        order_type := order_type
        action := action
        position := position
        direction := directionOf position action
        amount := amount
        feature := feature
        expire := expire
        delay := delay
        condition := condition
        price := price
        status := .pending
        current_timestamp := pyRound6 current_timestamp
        send_timestamp := send_ts.map pyRound6
        receive_timestamp := receive_ts.map pyRound6
        exchange_timestamp := exchange_ts.map pyRound6
        local_timestamp := local_ts.map pyRound6
        trigger_timestamp := trigger_ts.map pyRound6
        trigger_local_timestamp := trigger_local_ts.map pyRound6
        execute_price := execute_price
        execute_amount := execute_amount
        fee_rate := fee_rate
        msg := msg }

/-- The seven timestamp fields of `OrderInfo`. -/
inductive TsField where
  | current
  | send
  | receive
  | exchange
  | localTs
  | trigger
  | triggerLocal
deriving DecidableEq

/-- `OrderInfo.__setattr__` (schemaUtil.py lines 346-351) for a non-None
numeric write of a timestamp field.  The intercept list on line 347 names
only current, send, receive, exchange and local: those are rounded to
6 digits before storing; `trigger_timestamp` and `trigger_local_timestamp`
are not in the list and, with pydantic assignment validation not enabled,
are stored raw. -/
def OrderInfo.setTs (o : OrderInfo) : TsField → ℚ → OrderInfo
  | .current, v => { o with current_timestamp := pyRound6 v }
  | .send, v => { o with send_timestamp := some (pyRound6 v) }
  | .receive, v => { o with receive_timestamp := some (pyRound6 v) }
  | .exchange, v => { o with exchange_timestamp := some (pyRound6 v) }
  | .localTs, v => { o with local_timestamp := some (pyRound6 v) }
  | .trigger, v => { o with trigger_timestamp := some v }
  | .triggerLocal, v => { o with trigger_local_timestamp := some v }

/-- The `UpdateOrderInfo` pydantic model (schemaUtil.py lines 225-244); its
status literal excludes `'pending'` but that plays no role here. -/
structure UpdateOrderInfo where
  order_id : String
  status : Status
  exchange_timestamp : ℚ
  local_timestamp : ℚ
  execute_price : ℚ
  execute_amount : ℚ
  fee_rate : Option ℚ
  msg : Option String
deriving DecidableEq

/-- `OrderInfo.update` (schemaUtil.py lines 332-343).  Every assignment goes
through `__setattr__`; for exchange/local the method's explicit
`round(·, 6)` composes with the `__setattr__` rounding (round6 is
idempotent), and for the two trigger fields only the method's explicit
rounding applies. -/
def OrderInfo.update (o : OrderInfo) (u : UpdateOrderInfo) : OrderInfo :=
  let o1 : OrderInfo :=
    { o with
      status := u.status
      exchange_timestamp := some (pyRound6 u.exchange_timestamp)
      local_timestamp := some (pyRound6 u.local_timestamp)
      execute_price := u.execute_price
      execute_amount := u.execute_amount
      fee_rate := u.fee_rate
      msg := u.msg }
  if u.status = .triggered then
    { o1 with
      trigger_timestamp := some (pyRound6 u.exchange_timestamp)
      trigger_local_timestamp := some (pyRound6 u.local_timestamp) }
  else o1

/-- The `UpdateSnifferInfo` pydantic model (schemaUtil.py lines 247-262);
its status literal excludes `'pending'` but that plays no role here. -/
structure UpdateSnifferInfo where
  order_id : String
  status : SStatus
  exchange_timestamp : ℚ
  local_timestamp : ℚ
deriving DecidableEq

/-- The `TargetSnifferInfo` pydantic model (schemaUtil.py lines 354-389). -/
structure TargetSnifferInfo where
  order_id : String
  batch_id : String
  symbol : String
  exchange : String
  operator : String
  target_price : ℚ
  expire : Option ℚ
  delay : Option ℚ
  status : SStatus
  current_timestamp : ℚ
  exchange_timestamp : Option ℚ
  local_timestamp : Option ℚ
  drop : Bool
deriving DecidableEq

/-- The three timestamp fields of `TargetSnifferInfo`. -/
inductive SnTsField where
  | current
  | exchange
  | localTs
deriving DecidableEq

/-- `TargetSnifferInfo.__setattr__` (schemaUtil.py lines 386-389) for a
non-None numeric write: its intercept list names all three of its timestamp
fields, so each one is rounded to 6 digits. -/
def TargetSnifferInfo.setTs (sn : TargetSnifferInfo) : SnTsField → ℚ → TargetSnifferInfo
  | .current, v => { sn with current_timestamp := pyRound6 v }
  | .exchange, v => { sn with exchange_timestamp := some (pyRound6 v) }
  | .localTs, v => { sn with local_timestamp := some (pyRound6 v) }

/-- Pydantic construction of a `TargetSnifferInfo` (schemaUtil.py lines
354-378): the `validate_timestamp_precision` field validator rounds its
three timestamp fields to 6 digits; the model has no model validator, so
construction always succeeds.  `status` and `drop` are taken as parameters
(declared defaults `'pending'` and `True`). -/
def mkTargetSnifferInfo (order_id batch_id symbol exchange operator : String)
    (target_price : ℚ) (expire delay : Option ℚ) (status : SStatus)
    (current_timestamp : ℚ) (exchange_ts local_ts : Option ℚ) (drop : Bool) :
    TargetSnifferInfo :=
  { order_id := order_id
    batch_id := batch_id
    symbol := symbol
    exchange := exchange
    operator := operator
    target_price := target_price
    expire := expire
    delay := delay
    status := status
    current_timestamp := pyRound6 current_timestamp
    exchange_timestamp := exchange_ts.map pyRound6
    local_timestamp := local_ts.map pyRound6
    drop := drop }

/-- `TargetSnifferInfo.update` (schemaUtil.py lines 380-383): each
assignment goes through `__setattr__`, whose rounding composes with the
method's explicit `round(·, 6)` (round6 is idempotent). -/
def TargetSnifferInfo.update (sn : TargetSnifferInfo) (u : UpdateSnifferInfo) :
    TargetSnifferInfo :=
  { sn with
    status := u.status
    exchange_timestamp := some (pyRound6 u.exchange_timestamp)
    local_timestamp := some (pyRound6 u.local_timestamp) }

/-- The `TrailingSnifferInfo` pydantic model (schemaUtil.py lines 392-429);
the opaque `other_info` dict payload (default `{}`) is `Option String`. -/
structure TrailingSnifferInfo where
  order_id : String
  batch_id : String
  symbol : String
  exchange : String
  operator : String
  target_price : ℚ
  back_pct : ℚ
  expire : Option ℚ
  delay : Option ℚ
  status : SStatus
  current_timestamp : ℚ
  exchange_timestamp : Option ℚ
  local_timestamp : Option ℚ
  other_info : Option String
  drop : Bool
deriving DecidableEq

/-- `TrailingSnifferInfo.__setattr__` (schemaUtil.py lines 426-429) for a
non-None numeric write: like the target variant, its intercept list names
all three of its timestamp fields, so each one is rounded to 6 digits. -/
def TrailingSnifferInfo.setTs (sn : TrailingSnifferInfo) :
    SnTsField → ℚ → TrailingSnifferInfo
  | .current, v => { sn with current_timestamp := pyRound6 v }
  | .exchange, v => { sn with exchange_timestamp := some (pyRound6 v) }
  | .localTs, v => { sn with local_timestamp := some (pyRound6 v) }

/-- Pydantic construction of a `TrailingSnifferInfo` (schemaUtil.py lines
392-418): the `validate_timestamp_precision` field validator rounds its
three timestamp fields to 6 digits; no model validator, so construction
always succeeds. -/
def mkTrailingSnifferInfo (order_id batch_id symbol exchange operator : String)
    (target_price back_pct : ℚ) (expire delay : Option ℚ) (status : SStatus)
    (current_timestamp : ℚ) (exchange_ts local_ts : Option ℚ)
    (other_info : Option String) (drop : Bool) : TrailingSnifferInfo :=
  { order_id := order_id
    batch_id := batch_id
    symbol := symbol
    exchange := exchange
    operator := operator
    target_price := target_price
    back_pct := back_pct
    expire := expire
    delay := delay
    status := status
    current_timestamp := pyRound6 current_timestamp
    exchange_timestamp := exchange_ts.map pyRound6
    local_timestamp := local_ts.map pyRound6
    other_info := other_info
    drop := drop }

/-- `TrailingSnifferInfo.update` (schemaUtil.py lines 420-423). -/
def TrailingSnifferInfo.update (sn : TrailingSnifferInfo)
    (u : UpdateSnifferInfo) : TrailingSnifferInfo :=
  { sn with
    status := u.status
    exchange_timestamp := some (pyRound6 u.exchange_timestamp)
    local_timestamp := some (pyRound6 u.local_timestamp) }

/-- A concrete `OrderInfo`: exactly the record pydantic construction yields
for a market order with every optional field at its default. -/
def oInfoEx : OrderInfo :=
  { order_id := "a"
    batch_id := "b"
    symbol := "s"
    exchange := "e"
    order_type := .market
    action := .open_
    position := .long
    direction := 1
    amount := 1
    feature := none
    expire := none
    delay := none
    condition := none
    price := none
    status := .pending
    current_timestamp := pyRound6 0
    send_timestamp := none
    receive_timestamp := none
    exchange_timestamp := none
    local_timestamp := none
    trigger_timestamp := none
    trigger_local_timestamp := none
    execute_price := 0
    execute_amount := 0
    fee_rate := none
    msg := none }

/-- C5 counterexample: assigning `0.1234567` (seven decimal digits) directly
to `trigger_timestamp` through `__setattr__` stores it raw, and rounding it
to 6 digits would have changed it — so the stored value differs from the
written value rounded to 6 digits, refuting the claim for incremental
assignment of the trigger timestamp fields. -/
theorem setattr_trigger_ts_unrounded_cex :
    (oInfoEx.setTs .trigger (1234567/10000000)).trigger_timestamp =
      some (1234567/10000000)
    ∧ pyRound6 (1234567/10000000 : ℚ) ≠ (1234567/10000000 : ℚ) := by
  refine ⟨rfl, ?_⟩
  unfold pyRound6 pyRoundTo roundHalfEven
  have h1 : ((1234567 : ℚ)/10000000) * (10 : ℚ) ^ (6:ℤ) = 1234567/10 := by
    norm_num
  rw [h1]
  have h2 : ⌊(1234567/10 : ℚ)⌋ = 123456 := by norm_num
  rw [h2]
  rw [if_neg (by norm_num), if_pos (by norm_num)]
  norm_num

/-- C5 amended: timestamps are rounded to 6 digits on full-object
construction (all seven fields), by the `update` method (exchange, local and
— for a triggered status — the trigger pair), and on direct assignment of
current, send, receive, exchange and local; but direct assignment of
`trigger_timestamp` or `trigger_local_timestamp` stores the written value
raw, those two fields being absent from the `__setattr__` intercept list.
Sniffer snapshots (target and trailing variants alike) round all three of
their timestamp fields on every write: full-object construction, the
`update` method, and direct assignment. -/
theorem timestamp_rounding_amended :
    (∀ (o : OrderInfo) (v : ℚ),
       (o.setTs .current v).current_timestamp = pyRound6 v ∧
       (o.setTs .send v).send_timestamp = some (pyRound6 v) ∧
       (o.setTs .receive v).receive_timestamp = some (pyRound6 v) ∧
       (o.setTs .exchange v).exchange_timestamp = some (pyRound6 v) ∧
       (o.setTs .localTs v).local_timestamp = some (pyRound6 v) ∧
       (o.setTs .trigger v).trigger_timestamp = some v ∧
       (o.setTs .triggerLocal v).trigger_local_timestamp = some v)
    ∧ (∀ (oid bid sym exch : String) (ot : OrderType) (act : Action)
        (pos : Position) (amt : ℚ) (feat : Option Feature) (exp dl : Option ℚ)
        (cond : Option String) (pr : Option ℚ) (ct : ℚ)
        (sts rts ets lts tts tlts : Option ℚ) (epr eam : ℚ) (fr : Option ℚ)
        (m : Option String) (oi : OrderInfo),
       mkOrderInfo oid bid sym exch ot act pos amt feat exp dl cond pr ct
           sts rts ets lts tts tlts epr eam fr m = .ok oi →
       oi.current_timestamp = pyRound6 ct ∧
       oi.send_timestamp = sts.map pyRound6 ∧
       oi.receive_timestamp = rts.map pyRound6 ∧
       oi.exchange_timestamp = ets.map pyRound6 ∧
       oi.local_timestamp = lts.map pyRound6 ∧
       oi.trigger_timestamp = tts.map pyRound6 ∧
       oi.trigger_local_timestamp = tlts.map pyRound6)
    ∧ (∀ (o : OrderInfo) (u : UpdateOrderInfo),
       (o.update u).exchange_timestamp = some (pyRound6 u.exchange_timestamp) ∧
       (o.update u).local_timestamp = some (pyRound6 u.local_timestamp) ∧
       (u.status = .triggered →
         (o.update u).trigger_timestamp = some (pyRound6 u.exchange_timestamp) ∧
         (o.update u).trigger_local_timestamp = some (pyRound6 u.local_timestamp)))
    ∧ (∀ (sn : TargetSnifferInfo) (v : ℚ),
       (sn.setTs .current v).current_timestamp = pyRound6 v ∧
       (sn.setTs .exchange v).exchange_timestamp = some (pyRound6 v) ∧
       (sn.setTs .localTs v).local_timestamp = some (pyRound6 v))
    ∧ (∀ (sn : TrailingSnifferInfo) (v : ℚ),
       (sn.setTs .current v).current_timestamp = pyRound6 v ∧
       (sn.setTs .exchange v).exchange_timestamp = some (pyRound6 v) ∧
       (sn.setTs .localTs v).local_timestamp = some (pyRound6 v))
    ∧ (∀ (oid bid sym exch op : String) (tp : ℚ) (exp dl : Option ℚ)
        (st : SStatus) (ct : ℚ) (ets lts : Option ℚ) (dr : Bool),
       (mkTargetSnifferInfo oid bid sym exch op tp exp dl st ct ets lts
         dr).current_timestamp = pyRound6 ct ∧
       (mkTargetSnifferInfo oid bid sym exch op tp exp dl st ct ets lts
         dr).exchange_timestamp = ets.map pyRound6 ∧
       (mkTargetSnifferInfo oid bid sym exch op tp exp dl st ct ets lts
         dr).local_timestamp = lts.map pyRound6)
    ∧ (∀ (oid bid sym exch op : String) (tp bp : ℚ) (exp dl : Option ℚ)
        (st : SStatus) (ct : ℚ) (ets lts : Option ℚ) (oin : Option String)
        (dr : Bool),
       (mkTrailingSnifferInfo oid bid sym exch op tp bp exp dl st ct ets lts
         oin dr).current_timestamp = pyRound6 ct ∧
       (mkTrailingSnifferInfo oid bid sym exch op tp bp exp dl st ct ets lts
         oin dr).exchange_timestamp = ets.map pyRound6 ∧
       (mkTrailingSnifferInfo oid bid sym exch op tp bp exp dl st ct ets lts
         oin dr).local_timestamp = lts.map pyRound6)
    ∧ (∀ (sn : TargetSnifferInfo) (u : UpdateSnifferInfo),
       (sn.update u).exchange_timestamp = some (pyRound6 u.exchange_timestamp) ∧
       (sn.update u).local_timestamp = some (pyRound6 u.local_timestamp))
    ∧ (∀ (sn : TrailingSnifferInfo) (u : UpdateSnifferInfo),
       (sn.update u).exchange_timestamp = some (pyRound6 u.exchange_timestamp) ∧
       (sn.update u).local_timestamp = some (pyRound6 u.local_timestamp)) := by
  refine ⟨?_, ?_, ?_, ?_, ?_, ?_, ?_, ?_, ?_⟩
  · intro o v
    exact ⟨rfl, rfl, rfl, rfl, rfl, rfl, rfl⟩
  · intro oid bid sym exch ot act pos amt feat exp dl cond pr ct sts rts ets
      lts tts tlts epr eam fr m oi h
    unfold mkOrderInfo at h
    split_ifs at h
    cases h
    exact ⟨rfl, rfl, rfl, rfl, rfl, rfl, rfl⟩
  · intro o u
    unfold OrderInfo.update
    split_ifs with ht
    · exact ⟨rfl, rfl, fun _ => ⟨rfl, rfl⟩⟩
    · exact ⟨rfl, rfl, fun h' => absurd h' ht⟩
  · intro sn v
    exact ⟨rfl, rfl, rfl⟩
  · intro sn v
    exact ⟨rfl, rfl, rfl⟩
  · intro oid bid sym exch op tp exp dl st ct ets lts dr
    exact ⟨rfl, rfl, rfl⟩
  · intro oid bid sym exch op tp bp exp dl st ct ets lts oin dr
    exact ⟨rfl, rfl, rfl⟩
  · intro sn u
    exact ⟨rfl, rfl⟩
  · intro sn u
    exact ⟨rfl, rfl⟩

/-- Witness for the amended C5: the construction clause applied to a concrete
successful construction (the record `oInfoEx`). -/
theorem timestamp_rounding_amended_witness :
    oInfoEx.current_timestamp = pyRound6 0 ∧
    oInfoEx.send_timestamp = (none : Option ℚ).map pyRound6 ∧
    oInfoEx.receive_timestamp = (none : Option ℚ).map pyRound6 ∧
    oInfoEx.exchange_timestamp = (none : Option ℚ).map pyRound6 ∧
    oInfoEx.local_timestamp = (none : Option ℚ).map pyRound6 ∧
    oInfoEx.trigger_timestamp = (none : Option ℚ).map pyRound6 ∧
    oInfoEx.trigger_local_timestamp = (none : Option ℚ).map pyRound6 :=
  timestamp_rounding_amended.2.1 "a" "b" "s" "e" .market .open_ .long 1 none
    none none none none 0 none none none none none none 0 0 none none oInfoEx rfl

/-- C7: for every successfully constructed `OrderInfo`, the derived direction
is determined by position and action: (long, open) gives 1, (long, close)
gives -1, (short, open) gives -1, (short, close) gives 1. -/
theorem order_direction_spec
    (oid bid sym exch : String) (ot : OrderType) (act : Action) (pos : Position)
    (amt : ℚ) (feat : Option Feature) (exp dl : Option ℚ) (cond : Option String)
    (pr : Option ℚ) (ct : ℚ) (sts rts ets lts tts tlts : Option ℚ)
    (epr eam : ℚ) (fr : Option ℚ) (m : Option String) (oi : OrderInfo)
    (h : mkOrderInfo oid bid sym exch ot act pos amt feat exp dl cond pr ct
      sts rts ets lts tts tlts epr eam fr m = .ok oi) :
    (pos = .long → act = .open_ → oi.direction = 1) ∧
    (pos = .long → act = .close → oi.direction = -1) ∧
    (pos = .short → act = .open_ → oi.direction = -1) ∧
    (pos = .short → act = .close → oi.direction = 1) := by
  unfold mkOrderInfo at h
  split_ifs at h
  cases h
  refine ⟨?_, ?_, ?_, ?_⟩ <;> rintro rfl rfl <;> rfl

/-- Witness for C7 at a concrete input: a long open market order. -/
theorem order_direction_spec_witness :
    (Position.long = .long → Action.open_ = .open_ → oInfoEx.direction = 1) ∧
    (Position.long = .long → Action.open_ = .close → oInfoEx.direction = -1) ∧
    (Position.long = .short → Action.open_ = .open_ → oInfoEx.direction = -1) ∧
    (Position.long = .short → Action.open_ = .close → oInfoEx.direction = 1) :=
  order_direction_spec "a" "b" "s" "e" .market .open_ .long 1 none none none
    none none 0 none none none none none none 0 0 none none oInfoEx rfl

/-- C8: constructing an `OrderInfo` with price = None fails for a limit or
condition_limit order_type exactly when the feature is not queue (with
feature = queue it succeeds), and for the market and condition_market
order types it always succeeds. -/
theorem price_required_spec
    (oid bid sym exch : String) (ot : OrderType) (act : Action) (pos : Position)
    (amt : ℚ) (feat : Option Feature) (exp dl : Option ℚ) (cond : Option String)
    (ct : ℚ) (sts rts ets lts tts tlts : Option ℚ) (epr eam : ℚ)
    (fr : Option ℚ) (m : Option String) :
    ((ot = .limit ∨ ot = .condition_limit) →
      ((∃ oi, mkOrderInfo oid bid sym exch ot act pos amt feat exp dl cond none
          ct sts rts ets lts tts tlts epr eam fr m = .ok oi) ↔
        feat = some .queue)) ∧
    ((ot = .market ∨ ot = .condition_market) →
      ∃ oi, mkOrderInfo oid bid sym exch ot act pos amt feat exp dl cond none
        ct sts rts ets lts tts tlts epr eam fr m = .ok oi) := by
  constructor
  · intro hot
    unfold mkOrderInfo
    by_cases hq : feat = some Feature.queue
    · rw [if_neg (fun hcon => hcon.2.2 hq)]
      exact Iff.intro (fun _ => hq) (fun _ => ⟨_, rfl⟩)
    · rw [if_pos ⟨hot, rfl, hq⟩]
      exact iff_of_false (by rintro ⟨oi, h''⟩; cases h'') hq
  · intro hot
    unfold mkOrderInfo
    rw [if_neg ?_]
    · exact ⟨_, rfl⟩
    · rintro ⟨h1 | h1, -, -⟩ <;> rcases hot with h2 | h2 <;> simp_all

/-- Witness for C8 at a concrete input: a limit order with price = None and
feature = queue. -/
theorem price_required_spec_witness :
    ((OrderType.limit = .limit ∨ OrderType.limit = .condition_limit) →
      ((∃ oi, mkOrderInfo "a" "b" "s" "e" .limit .open_ .long 1 (some .queue)
          none none none none 0 none none none none none none 0 0 none none = .ok oi) ↔
        (some Feature.queue : Option Feature) = some .queue)) ∧
    ((OrderType.limit = .market ∨ OrderType.limit = .condition_market) →
      ∃ oi, mkOrderInfo "a" "b" "s" "e" .limit .open_ .long 1 (some .queue)
        none none none none 0 none none none none none none 0 0 none none = .ok oi) :=
  price_required_spec "a" "b" "s" "e" .limit .open_ .long 1 (some .queue)
    none none none 0 none none none none none none 0 0 none none

/-- The `Features` pydantic model (schemaUtil.py lines 36-45).  Its
`validate_features` model validator enforces that the two lists have equal
length. -/
structure Features where
  feature_fields : List String
  features : List (Option ℚ)
deriving DecidableEq

/-- Insertion of one binding into a Python dict (modelled as an ordered
association list): overwrite in place when the key exists, append fresh keys
at the end — Python dicts preserve insertion order. -/
def pyDictInsert (d : List (String × Option ℚ)) (k : String) (v : Option ℚ) :
    List (String × Option ℚ) :=
  if d.any (fun p => p.1 = k) then
    d.map (fun p => if p.1 = k then (k, v) else p)
  else d ++ [(k, v)]

/-- A Python dict built from a pair sequence (a dict comprehension):
left-to-right insertion with overwrite. -/
def pyDictOfPairs (ps : List (String × Option ℚ)) : List (String × Option ℚ) :=
  ps.foldl (fun d p => pyDictInsert d p.1 p.2) []

/-- Python `d[k]` on the dict model: value at the unique matching key. -/
def pyGet (d : List (String × Option ℚ)) (k : String) : Option (Option ℚ) :=
  match d with
  | [] => none
  | p :: rest => if p.1 = k then some p.2 else pyGet rest k

/-- `Features.as_dict` (schemaUtil.py lines 47-48): the dict comprehension
over `zip(self.feature_fields, self.features)`. -/
def Features.as_dict (f : Features) : List (String × Option ℚ) :=
  pyDictOfPairs (f.feature_fields.zip f.features)

/-- `Features.from_dict` (schemaUtil.py lines 50-55): feature_fields from the
dict's keys, features from its values. -/
def Features.from_dict (d : List (String × Option ℚ)) : Features :=
  { feature_fields := d.map Prod.fst, features := d.map Prod.snd }

theorem pyDictInsert_fresh (d : List (String × Option ℚ)) (k : String)
    (v : Option ℚ) (h : k ∉ d.map Prod.fst) :
    pyDictInsert d k v = d ++ [(k, v)] := by
  rw [pyDictInsert, if_neg]
  intro hany
  simp only [List.any_eq_true, decide_eq_true_eq] at hany
  obtain ⟨p, hp, hpk⟩ := hany
  exact h (hpk ▸ List.mem_map_of_mem Prod.fst hp)

theorem pyDictOfPairs_foldl_aux (l : List (String × Option ℚ)) :
    ∀ acc : List (String × Option ℚ), ((acc ++ l).map Prod.fst).Nodup →
    List.foldl (fun d p => pyDictInsert d p.1 p.2) acc l = acc ++ l := by
  induction l with
  | nil => intro acc _; simp
  | cons p l ih =>
    intro acc h
    have hfresh : p.1 ∉ acc.map Prod.fst := by
      intro hmem
      rw [List.map_append] at h
      have hd := List.disjoint_of_nodup_append h
      exact hd hmem (by simp)
    rw [List.foldl_cons]
    have hstep : pyDictInsert acc p.1 p.2 = acc ++ [p] :=
      pyDictInsert_fresh acc p.1 p.2 hfresh
    rw [hstep]
    rw [ih (acc ++ [p]) (by simpa using h)]
    simp

/-- On a pair list whose keys are pairwise distinct, the Python dict built
from it is the list itself. -/
theorem pyDictOfPairs_nodup (l : List (String × Option ℚ))
    (h : (l.map Prod.fst).Nodup) : pyDictOfPairs l = l := by
  have := pyDictOfPairs_foldl_aux l [] (by simpa using h)
  simpa [pyDictOfPairs] using this

theorem zip_map_fst_snd_self (l : List (String × Option ℚ)) :
    (l.map Prod.fst).zip (l.map Prod.snd) = l := by
  induction l with
  | nil => rfl
  | cons p l ih => simp [ih]

theorem pyGet_zip_nodup (a : List String) :
    ∀ (b : List (Option ℚ)), a.Nodup → a.length = b.length →
    ∀ (i : ℕ) (hia : i < a.length) (hib : i < b.length),
    pyGet (a.zip b) (a.get ⟨i, hia⟩) = some (b.get ⟨i, hib⟩) := by
  induction a with
  | nil =>
    intro b _ _ i hia hib
    exact absurd hia (by simp)
  | cons x a ih =>
    intro b hnd hlen i hia hib
    cases b with
    | nil => simp at hlen
    | cons y b =>
      cases i with
      | zero => simp [pyGet]
      | succ i =>
        have hia' : i < a.length := by simpa using hia
        have hib' : i < b.length := by simpa using hib
        show pyGet ((x, y) :: a.zip b) ((x :: a).get ⟨i + 1, hia⟩) = _
        rw [pyGet]
        rw [if_neg]
        · exact ih b (List.nodup_cons.mp hnd).2 (by simpa using hlen) i hia' hib'
        · intro hx
          have hx' : x = a.get ⟨i, hia'⟩ := by simpa using hx
          exact (List.nodup_cons.mp hnd).1 (hx' ▸ List.get_mem a i hia')

/-- C10: building a `Features` from a Python dict (distinct keys) and reading
it back with `as_dict` returns the dict unchanged; and for any `Features`
whose feature_fields are pairwise distinct (lengths equal, as the validator
enforces), `as_dict` pairs the i-th field with the i-th value. -/
theorem features_dict_round_trip :
    (∀ d : List (String × Option ℚ), (d.map Prod.fst).Nodup →
       (Features.from_dict d).as_dict = d)
    ∧ (∀ f : Features, f.feature_fields.Nodup →
       f.feature_fields.length = f.features.length →
       ∀ (i : ℕ) (hia : i < f.feature_fields.length)
         (hib : i < f.features.length),
       pyGet f.as_dict (f.feature_fields.get ⟨i, hia⟩) =
         some (f.features.get ⟨i, hib⟩)) := by
  constructor
  · intro d hnd
    show pyDictOfPairs ((d.map Prod.fst).zip (d.map Prod.snd)) = d
    rw [zip_map_fst_snd_self]
    exact pyDictOfPairs_nodup d hnd
  · intro f hnd hlen i hia hib
    have hzip : f.as_dict = f.feature_fields.zip f.features := by
      show pyDictOfPairs (f.feature_fields.zip f.features) = _
      refine pyDictOfPairs_nodup _ ?_
      rw [List.map_fst_zip _ _ (le_of_eq hlen)]
      exact hnd
    rw [hzip]
    exact pyGet_zip_nodup f.feature_fields f.features hnd hlen i hia hib

/-- Witness for C10 at a concrete input: a two-key dict. -/
theorem features_dict_round_trip_witness :
    (Features.from_dict [("x", some 1), ("y", none)]).as_dict =
      [("x", some 1), ("y", none)] :=
  features_dict_round_trip.1 [("x", some 1), ("y", none)] (by decide)

end AlgoUtils
